import Mathlib

/-!
Shallow embedding of the notification-driven audio registry of
`src/bin/events.rs` (with the process-tree walker shared with
`src/bin/current_window_session.rs`).

Platform calls (COM methods, process snapshots) are modelled as explicit
oracle values of type `Except WinError _` passed to the embedded functions;
the Rust `HashMap`s are modelled as association lists together with an
extensional lookup function; Rust `panic!`/`unwrap` sites are modelled by
the dedicated result type `PanicOr`.
-/

/-- A Windows API error (`windows::core::Error`): an HRESULT code plus a
message, as produced by `Error::new(HRESULT(..), "..")` in the source. -/
structure WinError where
  code : Int
  message : String
deriving DecidableEq

/-- `BAD_VALUE` from `src/utils.rs` (`0x8000_1054_i32`). -/
def BAD_VALUE : Int := 0x80001054

/-- `Error::new(HRESULT(BAD_VALUE), msg)` as used by the `TryFrom` impls. -/
def badValue (msg : String) : WinError := ⟨BAD_VALUE, msg⟩

/-- Outcome of a Rust computation that may `panic!` (via `.unwrap()`).
`panicked` models an uncaught panic, `ok` a normal return. -/
inductive PanicOr (α : Type) where
  | panicked : PanicOr α
  | ok : α → PanicOr α
deriving DecidableEq

/-- `enum EDataFlow` from events.rs (`Render = 0`, `Capture = 1`, `All`). -/
inductive EDataFlow where
  | Render
  | Capture
  | All
deriving DecidableEq

/-- The Rust discriminant of `EDataFlow` (`flow as usize`). -/
def EDataFlow.toIdx : EDataFlow → Nat
  | .Render => 0
  | .Capture => 1
  | .All => 2

/-- `enum ERole` from events.rs (`Console = 0`, `Multimedia = 1`,
`Communications = 2`). -/
inductive ERole where
  | Console
  | Multimedia
  | Communications
deriving DecidableEq

/-- The Rust discriminant of `ERole` (`role as usize`). -/
def ERole.toIdx : ERole → Nat
  | .Console => 0
  | .Multimedia => 1
  | .Communications => 2

/-- `enum SessionState` from events.rs. -/
inductive SessionState where
  | Active
  | Inactive
  | Expired
deriving DecidableEq

/-- The raw `AudioSessionState` platform values:
`AudioSessionStateInactive = 0`, `AudioSessionStateActive = 1`,
`AudioSessionStateExpired = 2`. `TryFrom<AudioSessionState> for SessionState`
maps them and rejects anything else with a `BAD_VALUE` error. -/
def sessionStateTryFrom (raw : Nat) : Except WinError SessionState :=
  if raw = 1 then .ok SessionState.Active
  else if raw = 0 then .ok SessionState.Inactive
  else if raw = 2 then .ok SessionState.Expired
  else .error (badValue "Bad value for state")

/-- `enum DisconnectReason` from events.rs. -/
inductive DisconnectReason where
  | DeviceRemoval
  | ServerShutdown
  | FormatChanged
  | SessionLogoff
  | SessionDisconnected
  | ExclusiveModeOverride
  | SessionExpired
deriving DecidableEq

/-- `enum DeviceState` from events.rs. The `Active` variant owns the
`IAudioSessionManager2` handle, modelled as an opaque numeric token. -/
inductive DeviceState where
  | Active : Nat → DeviceState
  | Disabled
  | NotPresent
  | Unplugged
deriving DecidableEq

/-- The raw `DEVICE_STATE` platform constants: `DEVICE_STATE_ACTIVE = 1`,
`DEVICE_STATE_DISABLED = 2`, `DEVICE_STATE_NOTPRESENT = 4`,
`DEVICE_STATE_UNPLUGGED = 8`. -/
def DEVICE_STATE_ACTIVE : Nat := 1

def DEVICE_STATE_DISABLED : Nat := 2

def DEVICE_STATE_NOTPRESENT : Nat := 4

def DEVICE_STATE_UNPLUGGED : Nat := 8

/-- One entry of a `sysinfo::System` process snapshot: a pid, the process
executable name, and the optional parent pid (`proc.parent()`). -/
structure ProcEntry where
  pid : Nat
  name : String
  parent : Option Nat
deriving DecidableEq

/-- `system.process(Pid::from_u32(pid))`: find the snapshot entry with the
given pid. -/
def procFind (pid : Nat) (snapshot : List ProcEntry) : Option ProcEntry :=
  snapshot.find? (fun e => e.pid == pid)

/-- Lookup in an association list modelling `HashMap::get`: the value at
the first matching key. -/
def lookupA {α : Type} (k : String) : List (String × α) → Option α
  | [] => none
  | (k', v) :: t => if k' = k then some v else lookupA k t

/-- Removal from an association list modelling `HashMap::remove`'s effect on
the map contents: every entry with the given key is dropped. -/
def removeA {α : Type} (k : String) : List (String × α) → List (String × α)
  | [] => []
  | (k', v) :: t => if k' = k then removeA k t else (k', v) :: removeA k t

/-- Insertion modelling `HashMap::insert`: the new binding shadows and
replaces any previous binding of the key. -/
def insertA {α : Type} (k : String) (v : α) (l : List (String × α)) :
    List (String × α) :=
  (k, v) :: removeA k l

/-- In-place update of an existing entry, modelling mutation through
`HashMap::get_mut`: entries with the key get the new value, other entries
and the map's shape are untouched. -/
def updateA {α : Type} (k : String) (v : α) : List (String × α) → List (String × α)
  | [] => []
  | (k', v') :: t =>
    if k' = k then (k', v) :: updateA k v t else (k', v') :: updateA k v t

theorem lookupA_removeA_self {α : Type} (k : String) (l : List (String × α)) :
    lookupA k (removeA k l) = none := by
  induction l with
  | nil => rfl
  | cons h t ih =>
    obtain ⟨k', v⟩ := h
    by_cases hk : k' = k
    · simp [removeA, hk, ih]
    · simp [removeA, lookupA, hk, ih]

theorem lookupA_removeA_ne {α : Type} {k k' : String} (l : List (String × α))
    (h : k' ≠ k) : lookupA k' (removeA k l) = lookupA k' l := by
  induction l with
  | nil => rfl
  | cons hd t ih =>
    obtain ⟨k₀, v⟩ := hd
    by_cases hk : k₀ = k
    · subst hk
      have hne : k₀ ≠ k' := fun he => h he.symm
      simp [removeA, lookupA, hne, ih]
    · simp only [removeA, if_neg hk, lookupA]
      by_cases hk' : k₀ = k'
      · simp [hk']
      · simp [hk', ih]

theorem lookupA_insertA_self {α : Type} (k : String) (v : α)
    (l : List (String × α)) : lookupA k (insertA k v l) = some v := by
  simp [insertA, lookupA]

theorem lookupA_insertA_ne {α : Type} {k k' : String} (v : α)
    (l : List (String × α)) (h : k' ≠ k) :
    lookupA k' (insertA k v l) = lookupA k' l := by
  have hne : k ≠ k' := fun he => h he.symm
  simp [insertA, lookupA, hne, lookupA_removeA_ne l h]

theorem lookupA_insertA {α : Type} (k k' : String) (v : α)
    (l : List (String × α)) :
    lookupA k' (insertA k v l) =
      if k = k' then some v else lookupA k' l := by
  by_cases h : k = k'
  · subst h
    simp [lookupA_insertA_self]
  · have h' : k' ≠ k := fun he => h he.symm
    simp [h, lookupA_insertA_ne v l h']

theorem lookupA_updateA_of_mem {α : Type} {k : String} {v₀ : α}
    (v : α) (l : List (String × α)) (h : lookupA k l = some v₀) :
    lookupA k (updateA k v l) = some v := by
  induction l with
  | nil => simp [lookupA] at h
  | cons hd t ih =>
    obtain ⟨k₀, v'⟩ := hd
    by_cases hk : k₀ = k
    · simp [updateA, hk, lookupA]
    · simp only [lookupA, if_neg hk] at h
      simp [updateA, hk, lookupA, ih h]

theorem lookupA_updateA_ne {α : Type} {k k' : String} (v : α)
    (l : List (String × α)) (h : k' ≠ k) :
    lookupA k' (updateA k v l) = lookupA k' l := by
  induction l with
  | nil => rfl
  | cons hd t ih =>
    obtain ⟨k₀, v'⟩ := hd
    by_cases hk : k₀ = k
    · subst hk
      have hne : k₀ ≠ k' := fun he => h he.symm
      simp [updateA, lookupA, hne, ih]
    · simp only [updateA, if_neg hk, lookupA]
      by_cases hk' : k₀ = k'
      · simp [hk']
      · simp [hk', ih]

/-- `struct SessionInfo` from events.rs. The COM handles (`control`,
`control2`, `session_events`) carry no model state; the platform calls made
through them are supplied as oracle values where the source makes them.
`sessionId` models the `_id` field, `state` the `_state` field. -/
structure SessionInfo where
  instance_id : String
  sessionId : String
  display_name : Option String
  state : SessionState
  pid : Nat
deriving DecidableEq

/-- `SessionInfo::set_display_name`. An empty incoming name is turned into
`None`; a `None` name is resolved by re-querying the owning pid
(`control2.GetProcessId()`, the `getPid` oracle, whose failure aborts the
call with an error and leaves the name unchanged) and looking the pid up in
a fresh process snapshot, yielding the process name or `None` on a miss. -/
def SessionInfo.set_display_name (s : SessionInfo)
    (new_display_name : Option String) (getPid : Except WinError Nat)
    (snapshot : List ProcEntry) : Except WinError SessionInfo :=
  let cleaned : Option String :=
    match new_display_name with
    | some s => if s = "" then none else some s
    | none => none
  match cleaned with
  | some n => .ok { s with display_name := some n }
  | none =>
    match getPid with
    | .error e => .error e
    | .ok pid =>
      .ok { s with display_name := (procFind pid snapshot).map (fun e => e.name) }

/-- The per-session platform calls made by `SessionInfo::new` (through the
`IAudioSessionControl`/`IAudioSessionControl2` handles), as oracle values. -/
structure SessionOracle where
  getSessionIdentifier : Except WinError String
  registerNotification : Except WinError Unit
  getState : Except WinError Nat
  getPid : Except WinError Nat
  getDisplayName : Except WinError String

/-- `SessionInfo::new`: fetch the session identifier, register the session
notification, translate the raw state, fetch the owning pid, then set the
display name from the platform-reported name (normalising the empty name
through the process-snapshot fallback). Any failing call propagates. -/
def SessionInfo.new (instance_id : String) (so : SessionOracle)
    (snapshot : List ProcEntry) : Except WinError SessionInfo := do
  let sid ← so.getSessionIdentifier
  let _ ← so.registerNotification
  let raw ← so.getState
  let state ← sessionStateTryFrom raw
  let pid ← so.getPid
  let si : SessionInfo :=
    { instance_id := instance_id, sessionId := sid, display_name := none
      state := state, pid := pid }
  let reported ← so.getDisplayName
  si.set_display_name (some reported) so.getPid snapshot

/-- `struct DeviceInfo` from events.rs: the session map, the device id and
resolved name, and the lifecycle state. The `IMMDevice` handle and the
event sender carry no model state. -/
structure DeviceInfo where
  session_map : List (String × SessionInfo)
  id : String
  name : String
  state : DeviceState
deriving DecidableEq

/-- The platform calls made by `DeviceInfo::activate`: registering the
session-created notification on the session manager, and the session
enumerator. Each enumerated session is a (possibly failing) instance-id
fetch plus the per-session oracle for `SessionInfo::new`. -/
structure ActivateOracle where
  registerSessionNotification : Except WinError Unit
  getSessionEnumerator : Except WinError (List (Except WinError String × SessionOracle))

/-- `DeviceInfo::translate_state`: an `Active` raw state activates the
session-manager handle on the device (the `activateMgr` oracle); the three
other known raw states map directly; anything else is a `BAD_VALUE` error. -/
def DeviceInfo.translate_state (activateMgr : Except WinError Nat)
    (new_state : Nat) : Except WinError DeviceState :=
  if new_state = DEVICE_STATE_ACTIVE then
    match activateMgr with
    | .error e => .error e
    | .ok h => .ok (DeviceState.Active h)
  else if new_state = DEVICE_STATE_DISABLED then .ok DeviceState.Disabled
  else if new_state = DEVICE_STATE_NOTPRESENT then .ok DeviceState.NotPresent
  else if new_state = DEVICE_STATE_UNPLUGGED then .ok DeviceState.Unplugged
  else .error (badValue "Bad value for state")

/-- The enumeration `for` loop of `DeviceInfo::activate`: for each
enumerated session, fetch its instance id, build a `SessionInfo` via
`SessionInfo::new`, and insert it into the session map; a failing call
propagates with `?` (the partially-extended device is then observable
nowhere: `DeviceInfo::new` drops it and `set_state` panics). -/
def activateLoop (snapshot : List ProcEntry) :
    List (Except WinError String × SessionOracle) → DeviceInfo →
      Except WinError DeviceInfo
  | [], dev => .ok dev
  | entry :: rest, dev =>
    match entry.1 with
    | .error e => .error e
    | .ok instId =>
      match SessionInfo.new instId entry.2 snapshot with
      | .error e => .error e
      | .ok si =>
        activateLoop snapshot rest
          { dev with session_map := insertA instId si dev.session_map }

/-- `DeviceInfo::activate`: if the device is not `Active` return `Ok(())`
(the state may have changed again); otherwise register the session-created
notification, then enumerate the current sessions and insert a
`SessionInfo` for each into the session map. Any failing call propagates. -/
def DeviceInfo.activate (d : DeviceInfo) (ao : ActivateOracle)
    (snapshot : List ProcEntry) : Except WinError DeviceInfo :=
  match d.state with
  | DeviceState.Active _ =>
    match ao.registerSessionNotification with
    | .error e => .error e
    | .ok _ =>
      match ao.getSessionEnumerator with
      | .error e => .error e
      | .ok entries => activateLoop snapshot entries d
  | _ => .ok d

/-- `DeviceInfo::set_state`: translate the raw state (`.unwrap()`: a
translation error is a panic), store it, and if the new state is `Active`
run `activate` (`.unwrap()`: an activation error is a panic). -/
def DeviceInfo.set_state (d : DeviceInfo) (new_state : Nat)
    (activateMgr : Except WinError Nat) (ao : ActivateOracle)
    (snapshot : List ProcEntry) : PanicOr DeviceInfo :=
  match DeviceInfo.translate_state activateMgr new_state with
  | .error _ => .panicked
  | .ok st =>
    let d' : DeviceInfo := { d with state := st }
    match st with
    | DeviceState.Active _ =>
      match d'.activate ao snapshot with
      | .error _ => .panicked
      | .ok d'' => .ok d''
    | _ => .ok d'

/-- `struct DeviceMap` from events.rs: the device map plus the 3×2 default
matrix `[[Option<String>; 2]; 3]`, indexed `defaults[role as usize][flow as
usize]`. -/
structure DeviceMap where
  map : List (String × DeviceInfo)
  defaults : List (List (Option String))
deriving DecidableEq

/-- `DeviceMap::new()`. -/
def DeviceMap.new : DeviceMap :=
  { map := [], defaults := [[none, none], [none, none], [none, none]] }

/-- Read of `defaults[role][flow]`. -/
def DeviceMap.defaultCell (dm : DeviceMap) (role : ERole) (flow : EDataFlow) :
    Option String :=
  ((dm.defaults.getD role.toIdx []).getD flow.toIdx none)

/-- Write of `defaults[role][flow] = v`. -/
def DeviceMap.setDefaultCell (dm : DeviceMap) (role : ERole) (flow : EDataFlow)
    (v : Option String) : DeviceMap :=
  { dm with
    defaults :=
      dm.defaults.set role.toIdx ((dm.defaults.getD role.toIdx []).set flow.toIdx v) }

/-- `DeviceMap::get_default_device`: the `assert_ne!(flow, EDataFlow::All)`
is a panic on `All`; otherwise the matrix cell's device id, if any, is
looked up in the device map (a dangling id yields `None`). -/
def DeviceMap.get_default_device (dm : DeviceMap) (flow : EDataFlow)
    (role : ERole) : PanicOr (Option DeviceInfo) :=
  if flow = EDataFlow.All then .panicked
  else .ok ((dm.defaultCell role flow).bind (fun i => lookupA i dm.map))

/-- `struct SessionSimpleVolumeChangedEvent` from events.rs. -/
structure SessionSimpleVolumeChangedEvent where
  volume : Float
  mute : Bool

/-- `enum SessionEvent` from events.rs (`GroupingParamChanged` carries the
GUID as a `u128`, modelled as `Nat`). -/
inductive SessionEvent where
  | SimpleVolumeChanged : SessionSimpleVolumeChangedEvent → SessionEvent
  | DisplayNameChanged : String → SessionEvent
  | IconPathChanged : String → SessionEvent
  | GroupingParamChanged : Nat → SessionEvent
  | StateChanged : SessionState → SessionEvent
  | SessionDisconnected : DisconnectReason → SessionEvent

/-- `enum DeviceEvent` from events.rs (`DeviceStateChanged` carries the raw
`DEVICE_STATE` word). -/
inductive DeviceEvent where
  | DefaultDeviceChanged : EDataFlow → ERole → DeviceEvent
  | DeviceAdded : DeviceEvent
  | DeviceRemoved : DeviceEvent
  | DeviceStateChanged : Nat → DeviceEvent
  | SessionCreated : String → DeviceEvent

/-- `enum Event` from events.rs: the envelope pushed onto the channel. -/
inductive Event where
  | Device : String → DeviceEvent → Event
  | Session : String → String → SessionEvent → Event
  | ActiveWindowChange : Nat → Event

/-- `AudioSessionEvents::OnStateChanged`: translate the raw state; on
`Expired` first synthesize a `SessionDisconnected(SessionExpired)` event,
then (in every successful case) forward the `StateChanged` event. The
returned list is the channel pushes in order. -/
def AudioSessionEvents.OnStateChanged (device_id session_instance_id : String)
    (raw : Nat) : Except WinError (List Event) :=
  match sessionStateTryFrom raw with
  | .error e => .error e
  | .ok new_state =>
    let head : List Event :=
      if new_state = SessionState.Expired then
        [Event.Session device_id session_instance_id
          (SessionEvent.SessionDisconnected DisconnectReason.SessionExpired)]
      else []
    .ok (head ++
      [Event.Session device_id session_instance_id
        (SessionEvent.StateChanged new_state)])

/-- `handle_session_event` from events.rs: resolve the (device id,
session-instance-id) compound key, dropping the event with `Ok(())` when
either part is missing; then only `DisplayNameChanged` (through
`set_display_name`) and `SessionDisconnected` (removal from the session
map) mutate the registry, every other session event only logs. -/
def handle_session_event (dm : DeviceMap) (device_id session_instance_id : String)
    (session_event : SessionEvent) (getPid : Except WinError Nat)
    (snapshot : List ProcEntry) : Except WinError DeviceMap :=
  match lookupA device_id dm.map with
  | none => .ok dm
  | some device_info =>
    match lookupA session_instance_id device_info.session_map with
    | none => .ok dm
    | some session_info =>
      match session_event with
      | SessionEvent.SimpleVolumeChanged _ => .ok dm
      | SessionEvent.DisplayNameChanged new_display_name =>
        match session_info.set_display_name (some new_display_name) getPid snapshot with
        | .error e => .error e
        | .ok si' =>
          .ok { dm with
            map := updateA device_id
              { device_info with
                session_map := updateA session_instance_id si' device_info.session_map }
              dm.map }
      | SessionEvent.GroupingParamChanged _ => .ok dm
      | SessionEvent.IconPathChanged _ => .ok dm
      | SessionEvent.StateChanged _ => .ok dm
      | SessionEvent.SessionDisconnected _ =>
        .ok { dm with
          map := updateA device_id
            { device_info with
              session_map := removeA session_instance_id device_info.session_map }
            dm.map }

/-- The platform calls `DeviceInfo::new` makes on its `IMMDevice`:
`get_device_name`, `GetId`, `GetState`, and (when the state is active) the
session-manager activation plus the calls of `DeviceInfo::activate`. -/
structure DeviceOracle where
  getName : Except WinError String
  getId : Except WinError String
  getState : Except WinError Nat
  activateMgr : Except WinError Nat
  activateOracle : ActivateOracle

/-- `DeviceInfo::new`: resolve name, id and raw state, translate the state
(activating the session manager if active), and if active run `activate`.
Errors propagate with `?`. -/
def DeviceInfo.new (o : DeviceOracle) (snapshot : List ProcEntry) :
    Except WinError DeviceInfo := do
  let name ← o.getName
  let id ← o.getId
  let raw ← o.getState
  let state ← DeviceInfo.translate_state o.activateMgr raw
  let d : DeviceInfo := { session_map := [], id := id, name := name, state := state }
  match state with
  | DeviceState.Active _ => d.activate o.activateOracle snapshot
  | _ => .ok d

/-- The `find_map` body of the `SessionCreated` branch of
`handle_device_event`: skip enumeration items that errored, and at the item
whose session-instance-id matches, build the `SessionInfo` with
`SessionInfo::new(..).unwrap()` (a failure is a panic). -/
def findCreatedSession (target : String) (snapshot : List ProcEntry) :
    List (Except WinError (String × SessionOracle)) → Option (PanicOr SessionInfo)
  | [] => none
  | item :: rest =>
    match item with
    | .error _ => findCreatedSession target snapshot rest
    | .ok (siid, so) =>
      if siid = target then
        some (match SessionInfo.new siid so snapshot with
          | .error _ => PanicOr.panicked
          | .ok si => PanicOr.ok si)
      else findCreatedSession target snapshot rest

/-- The platform calls available to `handle_device_event`: the
session-manager activation and activation calls for `set_state`, the fresh
process snapshot used for display-name resolution, `enumerator.GetDevice`
(bundled with the device's own calls) for `DeviceAdded`, and the
`all_sessions` enumeration for `SessionCreated`. -/
structure DeviceEventOracle where
  activateMgr : Except WinError Nat
  activateOracle : ActivateOracle
  snapshot : List ProcEntry
  getDevice : Except WinError DeviceOracle
  allSessions : Except WinError (List (Except WinError (String × SessionOracle)))

/-- `handle_device_event` from events.rs. `DefaultDeviceChanged` drops the
event when the named device is absent, and otherwise writes the device id
into the matrix cell(s), fanning `All` out to `Render` and `Capture`;
`DeviceAdded` builds a `DeviceInfo` and inserts it keyed by its own id;
`DeviceRemoved` removes; `DeviceStateChanged` calls `set_state` on the
device (whose `.unwrap()`s surface as panics); `SessionCreated` inserts the
freshly-enumerated session into an active device's map. -/
def handle_device_event (device_id : String) (device_event : DeviceEvent)
    (dm : DeviceMap) (o : DeviceEventOracle) : PanicOr (Except WinError DeviceMap) :=
  match device_event with
  | DeviceEvent.DefaultDeviceChanged flow role =>
    match lookupA device_id dm.map with
    | none => .ok (.ok dm)
    | some _ =>
      let flows : List EDataFlow :=
        match flow with
        | EDataFlow.All => [EDataFlow.Render, EDataFlow.Capture]
        | f => [f]
      .ok (.ok (flows.foldl
        (fun acc f => acc.setDefaultCell role f (some device_id)) dm))
  | DeviceEvent.DeviceAdded =>
    match (do
        let dvo ← o.getDevice
        DeviceInfo.new dvo o.snapshot : Except WinError DeviceInfo) with
    | .error e => .ok (.error e)
    | .ok di => .ok (.ok { dm with map := insertA di.id di dm.map })
  | DeviceEvent.DeviceRemoved =>
    .ok (.ok { dm with map := removeA device_id dm.map })
  | DeviceEvent.DeviceStateChanged new_state =>
    match lookupA device_id dm.map with
    | none => .ok (.ok dm)
    | some device_info =>
      match device_info.set_state new_state o.activateMgr o.activateOracle o.snapshot with
      | .panicked => .panicked
      | .ok di' => .ok (.ok { dm with map := updateA device_id di' dm.map })
  | DeviceEvent.SessionCreated session_instance_id =>
    match lookupA device_id dm.map with
    | none => .ok (.ok dm)
    | some device_info =>
      match device_info.state with
      | DeviceState.Active _ =>
        match o.allSessions with
        | .error e => .ok (.error e)
        | .ok items =>
          match findCreatedSession session_instance_id o.snapshot items with
          | none => .ok (.ok dm)
          | some PanicOr.panicked => .panicked
          | some (PanicOr.ok si) =>
            .ok (.ok { dm with
              map := updateA device_id
                { device_info with
                  session_map := insertA session_instance_id si device_info.session_map }
                dm.map })
      | _ => .ok (.ok dm)

/-- One round of `pid_and_child_pids`: the pids of all snapshot processes
whose parent is in the previous round
(`proc.parent().map_or(false, |parent| last.contains(&parent))`). -/
def childStep (snapshot : List ProcEntry) (last : List Nat) : List Nat :=
  snapshot.filterMap (fun e =>
    if (e.parent.map (fun par => if par ∈ last then true else false)).getD false
    then some e.pid else none)

/-- The successive rounds of the expansion, starting from the singleton
round holding the focus pid. -/
def rounds (snapshot : List ProcEntry) (start : Nat) : Nat → List Nat
  | 0 => [start]
  | k + 1 => childStep snapshot (rounds snapshot start k)

/-- The `loop` of `pid_and_child_pids`, with explicit fuel standing for the
number of iterations the loop is observed for: `none` means the loop has
not exited within that many iterations. `acc` is the `children` stack of
rounds, most recent first; the loop computes the next round from the most
recent one and exits when it is empty. -/
def pidChildLoop (snapshot : List ProcEntry) :
    Nat → List (List Nat) → Option (List (List Nat))
  | 0, _ => none
  | fuel + 1, acc =>
    let nc := childStep snapshot (acc.headD [])
    if nc.isEmpty then some acc else pidChildLoop snapshot fuel (nc :: acc)

/-- `pid_and_child_pids` (identical in events.rs and
current_window_session.rs): run the round loop from `[{parent_pid}]` and,
when it exits, flatten the collected rounds into the result set (a
`HashSet`, modelled as a list read extensionally). -/
def pid_and_child_pids (fuel : Nat) (snapshot : List ProcEntry) (parent_pid : Nat) :
    Option (List Nat) :=
  (pidChildLoop snapshot fuel [[parent_pid]]).map (fun acc => acc.flatten)

/-- The parent-link child relation of a snapshot: `childRel snapshot p q`
holds when the snapshot records process `q` with parent `p`. -/
def childRel (snapshot : List ProcEntry) (p q : Nat) : Prop :=
  ∃ e, e ∈ snapshot ∧ e.pid = q ∧ e.parent = some p

/-- Termination of the expansion loop of `pid_and_child_pids`: some round
comes up empty (the loop's only exit condition). -/
def expansionTerminates (snapshot : List ProcEntry) (start : Nat) : Prop :=
  ∃ k, rounds snapshot start k = []

/-- `find_sessions_for_pid` from events.rs: expand the focus pid to itself
plus its descendants, then over the whole device registry collect the
(device id, session-instance-id) pairs of sessions whose owning pid is in
the expanded set. `none` propagates a non-terminating expansion. -/
def find_sessions_for_pid (fuel : Nat) (pid : Nat) (dm : DeviceMap)
    (system : List ProcEntry) : Option (List (String × String)) :=
  (pid_and_child_pids fuel system pid).map (fun proc_and_children =>
    (dm.map.map Prod.snd).flatMap (fun device =>
      (device.session_map.map Prod.snd).filterMap (fun session =>
        if session.pid ∈ proc_and_children
        then some (device.id, session.instance_id) else none)))

theorem mem_childStep {snapshot : List ProcEntry} {last : List Nat} {q : Nat} :
    q ∈ childStep snapshot last ↔ ∃ p, p ∈ last ∧ childRel snapshot p q := by
  unfold childStep childRel
  rw [List.mem_filterMap]
  constructor
  · rintro ⟨e, he, hf⟩
    cases hp : e.parent with
    | none => rw [hp] at hf; simp at hf
    | some par =>
      rw [hp] at hf
      by_cases hin : par ∈ last
      · simp only [Option.map_some', if_pos hin, Option.getD_some, if_pos] at hf
        obtain rfl : e.pid = q := by
          simpa using hf
        exact ⟨par, hin, e, he, rfl, hp⟩
      · simp [hin] at hf
  · rintro ⟨p, hpl, e, he, hpid, hpar⟩
    refine ⟨e, he, ?_⟩
    simp [hpar, hpl, hpid]

theorem childStep_nil (snapshot : List ProcEntry) : childStep snapshot [] = [] := by
  apply List.eq_nil_iff_forall_not_mem.mpr
  intro q hq
  obtain ⟨p, hp, _⟩ := mem_childStep.mp hq
  exact absurd hp (List.not_mem_nil p)

theorem rounds_empty_of_le {snapshot : List ProcEntry} {start : Nat} {k : Nat}
    (h : rounds snapshot start k = []) :
    ∀ j, k ≤ j → rounds snapshot start j = [] := by
  intro j hj
  induction j, hj using Nat.le_induction with
  | base => exact h
  | succ n _ ih => rw [rounds, ih, childStep_nil]

theorem mem_rounds_reachable {snapshot : List ProcEntry} {start : Nat} :
    ∀ k p, p ∈ rounds snapshot start k →
      Relation.ReflTransGen (childRel snapshot) start p := by
  intro k
  induction k with
  | zero =>
    intro p hp
    obtain rfl : p = start := by simpa [rounds] using hp
    exact Relation.ReflTransGen.refl
  | succ n ih =>
    intro p hp
    obtain ⟨q, hq, hrel⟩ := mem_childStep.mp hp
    exact Relation.ReflTransGen.tail (ih q hq) hrel

theorem reachable_mem_rounds {snapshot : List ProcEntry} {start p : Nat}
    (h : Relation.ReflTransGen (childRel snapshot) start p) :
    ∃ k, p ∈ rounds snapshot start k := by
  induction h with
  | refl => exact ⟨0, by simp [rounds]⟩
  | tail _ hrel ih =>
    obtain ⟨k, hk⟩ := ih
    exact ⟨k + 1, mem_childStep.mpr ⟨_, hk, hrel⟩⟩

/-- The `children` stack after `k` completed loop iterations: the rounds
`k, k-1, ..., 0`, most recent first. -/
def stackOf (snapshot : List ProcEntry) (start : Nat) : Nat → List (List Nat)
  | 0 => [[start]]
  | k + 1 => rounds snapshot start (k + 1) :: stackOf snapshot start k

theorem stackOf_headD (snapshot : List ProcEntry) (start : Nat) (k : Nat) :
    (stackOf snapshot start k).headD [] = rounds snapshot start k := by
  cases k <;> rfl

theorem pidChildLoop_succ (snapshot : List ProcEntry) (fuel : Nat)
    (acc : List (List Nat)) :
    pidChildLoop snapshot (fuel + 1) acc =
      if (childStep snapshot (acc.headD [])).isEmpty
      then some acc
      else pidChildLoop snapshot fuel (childStep snapshot (acc.headD []) :: acc) :=
  rfl

theorem pidChildLoop_step_at (snapshot : List ProcEntry) (start : Nat)
    (fuel k : Nat) :
    pidChildLoop snapshot (fuel + 1) (stackOf snapshot start k) =
      if (rounds snapshot start (k + 1)).isEmpty
      then some (stackOf snapshot start k)
      else pidChildLoop snapshot fuel (stackOf snapshot start (k + 1)) := by
  rw [pidChildLoop_succ, stackOf_headD]
  rfl

theorem pidChildLoop_of_empty (snapshot : List ProcEntry) (start : Nat) :
    ∀ n k, rounds snapshot start (k + n + 1) = [] →
      ∃ m, m ≤ n ∧
        pidChildLoop snapshot (n + 1) (stackOf snapshot start k) =
          some (stackOf snapshot start (k + m)) ∧
        rounds snapshot start (k + m + 1) = [] := by
  intro n
  induction n with
  | zero =>
    intro k h
    have h' : rounds snapshot start (k + 1) = [] := by simpa using h
    refine ⟨0, le_refl 0, ?_, by simpa using h'⟩
    rw [pidChildLoop_step_at, h']
    simp
  | succ n ih =>
    intro k h
    by_cases h1 : rounds snapshot start (k + 1) = []
    · refine ⟨0, Nat.zero_le _, ?_, by simpa using h1⟩
      rw [pidChildLoop_step_at, h1]
      simp
    · have hemp : ¬ (rounds snapshot start (k + 1)).isEmpty = true := by
        rw [List.isEmpty_iff]; exact h1
      have h' : rounds snapshot start ((k + 1) + n + 1) = [] := by
        have he : (k + 1) + n + 1 = k + (n + 1) + 1 := by omega
        rw [he]; exact h
      obtain ⟨m, hm, hloop, hend⟩ := ih (k + 1) h'
      refine ⟨m + 1, by omega, ?_, ?_⟩
      · rw [pidChildLoop_step_at, if_neg hemp]
        have he : k + (m + 1) = (k + 1) + m := by omega
        rw [he]
        exact hloop
      · have he : k + (m + 1) + 1 = (k + 1) + m + 1 := by omega
        rw [he]
        exact hend

theorem pidChildLoop_result (snapshot : List ProcEntry) (start : Nat) :
    ∀ fuel k acc, pidChildLoop snapshot fuel (stackOf snapshot start k) = some acc →
      ∃ m, acc = stackOf snapshot start (k + m) ∧
        rounds snapshot start (k + m + 1) = [] := by
  intro fuel
  induction fuel with
  | zero => intro k acc h; simp [pidChildLoop] at h
  | succ n ih =>
    intro k acc h
    rw [pidChildLoop_step_at] at h
    by_cases h1 : rounds snapshot start (k + 1) = []
    · have hemp : (rounds snapshot start (k + 1)).isEmpty = true := by
        rw [List.isEmpty_iff]; exact h1
      rw [if_pos hemp] at h
      obtain rfl : stackOf snapshot start k = acc := by
        simpa using h
      exact ⟨0, by simp, by simpa using h1⟩
    · have hemp : ¬ (rounds snapshot start (k + 1)).isEmpty = true := by
        rw [List.isEmpty_iff]; exact h1
      rw [if_neg hemp] at h
      obtain ⟨m, hacc, hend⟩ := ih (k + 1) acc h
      refine ⟨m + 1, ?_, ?_⟩
      · have he : k + (m + 1) = (k + 1) + m := by omega
        rw [he]; exact hacc
      · have he : k + (m + 1) + 1 = (k + 1) + m + 1 := by omega
        rw [he]; exact hend

theorem mem_flatten_stackOf (snapshot : List ProcEntry) (start : Nat) :
    ∀ k p, p ∈ (stackOf snapshot start k).flatten ↔
      ∃ j, j ≤ k ∧ p ∈ rounds snapshot start j := by
  intro k
  induction k with
  | zero =>
    intro p
    constructor
    · intro hp
      exact ⟨0, le_refl 0, by simpa [stackOf, rounds] using hp⟩
    · rintro ⟨j, hj, hp⟩
      obtain rfl : j = 0 := Nat.le_zero.mp hj
      simpa [stackOf, rounds] using hp
  | succ n ih =>
    intro p
    rw [stackOf, List.flatten_cons, List.mem_append]
    constructor
    · rintro (hp | hp)
      · exact ⟨n + 1, le_refl _, hp⟩
      · obtain ⟨j, hj, hp⟩ := (ih p).mp hp
        exact ⟨j, by omega, hp⟩
    · rintro ⟨j, hj, hp⟩
      by_cases hje : j = n + 1
      · subst hje
        exact Or.inl hp
      · exact Or.inr ((ih p).mpr ⟨j, by omega, hp⟩)

theorem pid_and_child_pids_mem {fuel : Nat} {snapshot : List ProcEntry}
    {start : Nat} {res : List Nat}
    (h : pid_and_child_pids fuel snapshot start = some res) :
    ∀ p, p ∈ res ↔ Relation.ReflTransGen (childRel snapshot) start p := by
  unfold pid_and_child_pids at h
  cases hloop : pidChildLoop snapshot fuel [[start]] with
  | none => rw [hloop] at h; simp at h
  | some acc =>
    rw [hloop] at h
    simp only [Option.map_some'] at h
    obtain rfl : acc.flatten = res := by simpa using h
    have h0 : pidChildLoop snapshot fuel (stackOf snapshot start 0) = some acc := hloop
    obtain ⟨m, rfl, hend⟩ := pidChildLoop_result snapshot start fuel 0 acc h0
    intro p
    rw [mem_flatten_stackOf]
    constructor
    · rintro ⟨j, _, hp⟩
      exact mem_rounds_reachable j p hp
    · intro hr
      obtain ⟨j, hp⟩ := reachable_mem_rounds hr
      by_cases hj : j ≤ 0 + m
      · exact ⟨j, hj, hp⟩
      · exfalso
        have : rounds snapshot start j = [] :=
          rounds_empty_of_le hend j (by omega)
        rw [this] at hp
        exact absurd hp (List.not_mem_nil p)

theorem pid_and_child_pids_some_terminates {fuel : Nat}
    {snapshot : List ProcEntry} {start : Nat} {res : List Nat}
    (h : pid_and_child_pids fuel snapshot start = some res) :
    expansionTerminates snapshot start := by
  unfold pid_and_child_pids at h
  cases hloop : pidChildLoop snapshot fuel [[start]] with
  | none => rw [hloop] at h; simp at h
  | some acc =>
    have h0 : pidChildLoop snapshot fuel (stackOf snapshot start 0) = some acc := hloop
    obtain ⟨m, _, hend⟩ := pidChildLoop_result snapshot start fuel 0 acc h0
    exact ⟨0 + m + 1, hend⟩

/-- A depth measure certifying that the snapshot's parent links are
acyclic: every recorded parent is strictly shallower than its child. Real
process trees admit such a measure (e.g. tree depth or creation order). -/
def parentDeeper (depth : Nat → Nat) (e : ProcEntry) : Bool :=
  match e.parent with
  | none => true
  | some par => depth par < depth e.pid

theorem rounds_depth_lower {snapshot : List ProcEntry} {start : Nat}
    {depth : Nat → Nat}
    (hd : ∀ e ∈ snapshot, parentDeeper depth e = true) :
    ∀ k p, p ∈ rounds snapshot start k → depth start + k ≤ depth p := by
  intro k
  induction k with
  | zero =>
    intro p hp
    obtain rfl : p = start := by simpa [rounds] using hp
    omega
  | succ n ih =>
    intro p hp
    obtain ⟨q, hq, e, he, hpid, hpar⟩ := mem_childStep.mp hp
    have hdq := ih q hq
    have := hd e he
    rw [parentDeeper, hpar] at this
    have hlt : depth q < depth e.pid := by
      exact of_decide_eq_true this
    rw [hpid] at hlt
    omega

theorem mem_rounds_pid {snapshot : List ProcEntry} {start : Nat} {k p : Nat}
    (hp : p ∈ rounds snapshot start (k + 1)) :
    ∃ e ∈ snapshot, e.pid = p := by
  obtain ⟨_, _, e, he, hpid, _⟩ := mem_childStep.mp hp
  exact ⟨e, he, hpid⟩

theorem mem_le_foldr_max (l : List Nat) (x : Nat) (h : x ∈ l) :
    x ≤ l.foldr max 0 := by
  induction l with
  | nil => exact absurd h (List.not_mem_nil x)
  | cons a t ih =>
    rcases List.mem_cons.mp h with rfl | hm
    · exact le_max_left _ _
    · exact le_trans (ih hm) (le_max_right _ _)

theorem rounds_empty_of_depth {snapshot : List ProcEntry} (start : Nat)
    {depth : Nat → Nat}
    (hd : ∀ e ∈ snapshot, parentDeeper depth e = true) :
    rounds snapshot start ((snapshot.map (fun e => depth e.pid)).foldr max 0 + 1) = [] := by
  set M := (snapshot.map (fun e => depth e.pid)).foldr max 0 with hM
  apply List.eq_nil_iff_forall_not_mem.mpr
  intro p hp
  have hlow : depth start + (M + 1) ≤ depth p :=
    rounds_depth_lower hd (M + 1) p hp
  obtain ⟨e, he, rfl⟩ := mem_rounds_pid hp
  have hup : depth e.pid ≤ M := by
    apply mem_le_foldr_max
    exact List.mem_map.mpr ⟨e, he, rfl⟩
  omega

/-- The session entries produced by the enumeration loop of
`DeviceInfo::activate`, keyed by their session-instance-id, independent of
the device they are inserted into (the loop only reads the oracles and the
snapshot); the first failing call's error is the loop's error. -/
def sessionEntriesList (snapshot : List ProcEntry) :
    List (Except WinError String × SessionOracle) →
      Except WinError (List (String × SessionInfo))
  | [] => .ok []
  | entry :: rest =>
    match entry.1 with
    | .error e => .error e
    | .ok instId =>
      match SessionInfo.new instId entry.2 snapshot with
      | .error e => .error e
      | .ok si =>
        match sessionEntriesList snapshot rest with
        | .error e => .error e
        | .ok es => .ok ((instId, si) :: es)

/-- The session entries a successful activation inserts, as determined by
the activation oracle and the snapshot. -/
def sessionEntries (ao : ActivateOracle) (snapshot : List ProcEntry) :
    Except WinError (List (String × SessionInfo)) :=
  match ao.getSessionEnumerator with
  | .error e => .error e
  | .ok entries => sessionEntriesList snapshot entries

/-- Folding the enumerated entries into a session map, in enumeration
order, each insertion shadowing any previous binding of its key. -/
def insertEntries (es : List (String × SessionInfo))
    (m : List (String × SessionInfo)) : List (String × SessionInfo) :=
  es.foldl (fun acc e => insertA e.1 e.2 acc) m

theorem activateLoop_form (snapshot : List ProcEntry) :
    ∀ (entries : List (Except WinError String × SessionOracle)) (d : DeviceInfo),
      activateLoop snapshot entries d =
        match sessionEntriesList snapshot entries with
        | .error e => .error e
        | .ok es => .ok { d with session_map := insertEntries es d.session_map } := by
  intro entries
  induction entries with
  | nil => intro d; rfl
  | cons entry rest ih =>
    intro d
    rw [activateLoop, sessionEntriesList]
    cases hinst : entry.1 with
    | error e => simp only [hinst]
    | ok instId =>
      simp only [hinst]
      cases hnew : SessionInfo.new instId entry.2 snapshot with
      | error e => simp only [hnew]
      | ok si =>
        simp only [hnew]
        rw [ih]
        cases sessionEntriesList snapshot rest with
        | error e => rfl
        | ok es => rfl

theorem activate_form (d : DeviceInfo) (ao : ActivateOracle)
    (snapshot : List ProcEntry) (hdl : Nat)
    (hact : d.state = DeviceState.Active hdl) :
    d.activate ao snapshot =
      match ao.registerSessionNotification with
      | .error e => .error e
      | .ok _ =>
        match sessionEntries ao snapshot with
        | .error e => .error e
        | .ok es => .ok { d with session_map := insertEntries es d.session_map } := by
  unfold DeviceInfo.activate
  conv_lhs => rw [hact]
  cases hreg : ao.registerSessionNotification with
  | error e => simp only [hreg]
  | ok u =>
    simp only [hreg]
    unfold sessionEntries
    cases henum : ao.getSessionEnumerator with
    | error e => simp only [henum]
    | ok entries =>
      simp only [henum]
      exact activateLoop_form snapshot entries d

theorem set_state_active_form (d : DeviceInfo) (am : Except WinError Nat)
    (ao : ActivateOracle) (snapshot : List ProcEntry) :
    d.set_state DEVICE_STATE_ACTIVE am ao snapshot =
      match am with
      | .error _ => .panicked
      | .ok hdl =>
        match ao.registerSessionNotification with
        | .error _ => .panicked
        | .ok _ =>
          match sessionEntries ao snapshot with
          | .error _ => .panicked
          | .ok es =>
            .ok { d with
              state := DeviceState.Active hdl
              session_map := insertEntries es d.session_map } := by
  unfold DeviceInfo.set_state
  have htrans : DeviceInfo.translate_state am DEVICE_STATE_ACTIVE =
      match am with
      | .error e => .error e
      | .ok h => .ok (DeviceState.Active h) := by
    unfold DeviceInfo.translate_state
    rw [if_pos rfl]
  rw [htrans]
  cases ham : am with
  | error e => simp only [ham]
  | ok hdl =>
    simp only [ham]
    have hform := activate_form { d with state := DeviceState.Active hdl } ao snapshot hdl rfl
    rw [hform]
    cases hreg : ao.registerSessionNotification with
    | error e => simp only [hreg]
    | ok u =>
      simp only [hreg]
      cases hse : sessionEntries ao snapshot with
      | error e => simp only [hse]
      | ok es => simp only [hse]

theorem lookupA_append {α : Type} (k : String) (l₁ l₂ : List (String × α)) :
    lookupA k (l₁ ++ l₂) =
      match lookupA k l₁ with
      | some v => some v
      | none => lookupA k l₂ := by
  induction l₁ with
  | nil => rfl
  | cons hd t ih =>
    obtain ⟨k₀, v₀⟩ := hd
    by_cases hk : k₀ = k
    · simp [lookupA, hk]
    · simp only [List.cons_append, lookupA, if_neg hk]
      exact ih

theorem lookupA_insertEntries {α : Type} (k : String) :
    ∀ (es m : List (String × α)),
      lookupA k (es.foldl (fun acc e => insertA e.1 e.2 acc) m) =
        match lookupA k es.reverse with
        | some v => some v
        | none => lookupA k m := by
  intro es
  induction es with
  | nil => intro m; rfl
  | cons hd t ih =>
    intro m
    obtain ⟨k₀, v₀⟩ := hd
    rw [List.foldl_cons, ih]
    have hrev : ((k₀, v₀) :: t).reverse = t.reverse ++ [(k₀, v₀)] := by
      simp
    rw [hrev, lookupA_append]
    cases lookupA k t.reverse with
    | some v => rfl
    | none =>
      simp only []
      rw [lookupA_insertA]
      by_cases hk : k₀ = k
      · simp [lookupA, hk]
      · simp [lookupA, hk]

theorem lookupA_insertEntries_idem (k : String)
    (es m : List (String × SessionInfo)) :
    lookupA k (insertEntries es (insertEntries es m)) =
      lookupA k (insertEntries es m) := by
  unfold insertEntries
  rw [lookupA_insertEntries, lookupA_insertEntries]
  cases lookupA k es.reverse with
  | some v => rfl
  | none => rfl

/-- A placeholder error for oracle calls a scenario never reaches. -/
def unusedErr : WinError := ⟨0, "unused"⟩

/-- An oracle for device-event scenarios that make no platform calls. -/
def noCallsOracle : DeviceEventOracle :=
  { activateMgr := .error unusedErr
    activateOracle := { registerSessionNotification := .error unusedErr
                        getSessionEnumerator := .error unusedErr }
    snapshot := []
    getDevice := .error unusedErr
    allSessions := .error unusedErr }

/-- Claim C1, counterexample: with device "X" absent from the device map
(here: the freshly-created empty registry), a
`DefaultDeviceChanged(Render, Console)` event naming "X" is dropped — the
registry (matrix included) is returned unchanged, the Console/Render cell
stays empty and `get_default_device(Render, Console)` yields `None`, not
device "X" as the claim requires. -/
theorem default_roundtrip_dangling_counterexample :
    handle_device_event "X"
        (DeviceEvent.DefaultDeviceChanged EDataFlow.Render ERole.Console)
        DeviceMap.new noCallsOracle = PanicOr.ok (Except.ok DeviceMap.new) ∧
    DeviceMap.new.defaultCell ERole.Console EDataFlow.Render = none ∧
    DeviceMap.new.get_default_device EDataFlow.Render ERole.Console =
      PanicOr.ok none :=
  ⟨rfl, rfl, rfl⟩

/-- Claim C1, amended: the round-trip holds only for a device that is
present in the device map: if `lookupA x dm.map = some d`, processing
`DefaultDeviceChanged(Render, Console)` for `x` writes `x` into the
Console/Render matrix cell, leaves the device map untouched, and
`get_default_device(Render, Console)` then returns `d`. (When `x` is absent
the event is dropped and the matrix is not written — see the
counterexample.) -/
theorem default_roundtrip_present_device
    (dm : DeviceMap) (x : String) (d : DeviceInfo) (o : DeviceEventOracle)
    (c0 c1 c2 c3 c4 c5 : Option String)
    (hx : lookupA x dm.map = some d)
    (hdef : dm.defaults = [[c0, c1], [c2, c3], [c4, c5]]) :
    ∃ dm', handle_device_event x
        (DeviceEvent.DefaultDeviceChanged EDataFlow.Render ERole.Console)
        dm o = PanicOr.ok (Except.ok dm') ∧
      dm'.map = dm.map ∧
      dm'.defaultCell ERole.Console EDataFlow.Render = some x ∧
      dm'.get_default_device EDataFlow.Render ERole.Console =
        PanicOr.ok (some d) :=
  by
  refine ⟨DeviceMap.setDefaultCell dm ERole.Console EDataFlow.Render (some x),
    ?_, rfl, ?_, ?_⟩
  · simp only [handle_device_event, hx]
    rfl
  · unfold DeviceMap.setDefaultCell DeviceMap.defaultCell
    rw [hdef]
    rfl
  · unfold DeviceMap.get_default_device
    rw [if_neg (by simp : ¬ (EDataFlow.Render = EDataFlow.All))]
    unfold DeviceMap.setDefaultCell DeviceMap.defaultCell
    rw [hdef]
    simp only [ERole.toIdx, EDataFlow.toIdx]
    show PanicOr.ok ((some x).bind (fun i => lookupA i dm.map)) = PanicOr.ok (some d)
    simp [hx]

/-- The device entry used in concrete registry scenarios: device "X",
disabled, no sessions. -/
def devX : DeviceInfo :=
  { session_map := [], id := "X", name := "Device X", state := DeviceState.Disabled }

/-- A registry that already contains device "X" and an empty matrix. -/
def dmWithX : DeviceMap :=
  { map := [("X", devX)]
    defaults := [[none, none], [none, none], [none, none]] }

/-- Claim C1, witness for the amended round-trip at a concrete registry. -/
theorem default_roundtrip_present_device_witness :
    ∃ dm', handle_device_event "X"
        (DeviceEvent.DefaultDeviceChanged EDataFlow.Render ERole.Console)
        dmWithX noCallsOracle = PanicOr.ok (Except.ok dm') ∧
      dm'.map = dmWithX.map ∧
      dm'.defaultCell ERole.Console EDataFlow.Render = some "X" ∧
      dm'.get_default_device EDataFlow.Render ERole.Console =
        PanicOr.ok (some devX) :=
  default_roundtrip_present_device dmWithX "X" devX noCallsOracle
    none none none none none none rfl rfl

/-- The stale session of the deactivation scenario (claim C2). -/
def siStale : SessionInfo :=
  { instance_id := "s1", sessionId := "sid-1", display_name := some "App"
    state := SessionState.Active, pid := 100 }

/-- An active device holding one session, about to be deactivated. -/
def devActiveWithSession : DeviceInfo :=
  { session_map := [("s1", siStale)], id := "dev1", name := "Speakers"
    state := DeviceState.Active 7 }

/-- An activation oracle for transitions that never activate. -/
def aoNoCalls : ActivateOracle :=
  { registerSessionNotification := .error unusedErr
    getSessionEnumerator := .error unusedErr }

/-- Claim C2 (code bug): deactivating an `Active` device with a non-empty
session map does NOT clear the session map. `set_state(DEVICE_STATE_DISABLED)`
on a device holding session "s1" flips only the state field; the stale
session entry survives, contradicting the documented requirement that the
implementation explicitly clears the session map on deactivation. -/
theorem deactivation_keeps_stale_sessions :
    DeviceInfo.set_state devActiveWithSession DEVICE_STATE_DISABLED
        (Except.error unusedErr) aoNoCalls [] =
      PanicOr.ok { devActiveWithSession with state := DeviceState.Disabled } ∧
    ({ devActiveWithSession with state := DeviceState.Disabled }).session_map =
      [("s1", siStale)] ∧
    [("s1", siStale)] ≠ ([] : List (String × SessionInfo)) :=
  ⟨rfl, rfl, by simp⟩

/-- The error returned by the failing registration call in the C3 scenario. -/
def regFail : WinError := ⟨1, "register failed"⟩

/-- A disabled device about to be activated. -/
def devDisabled : DeviceInfo :=
  { session_map := [], id := "d1", name := "Dev", state := DeviceState.Disabled }

/-- A registry holding only the disabled device "d1". -/
def dmDisabled : DeviceMap :=
  { map := [("d1", devDisabled)]
    defaults := [[none, none], [none, none], [none, none]] }

/-- An oracle whose session-manager activation succeeds but whose
session-notification registration fails. -/
def oRegFails : DeviceEventOracle :=
  { activateMgr := .ok 5
    activateOracle := { registerSessionNotification := .error regFail
                        getSessionEnumerator := .ok [] }
    snapshot := []
    getDevice := .error unusedErr
    allSessions := .error unusedErr }

/-- Claim C3, counterexample: when the session-notification registration
fails during a `DeviceStateChanged(Active)` event, the handler does not
return the error to its caller — `set_state` `.unwrap()`s it and the whole
event-handling step panics (so the event loop cannot log-and-continue). -/
theorem activation_failure_panics_counterexample :
    handle_device_event "d1"
        (DeviceEvent.DeviceStateChanged DEVICE_STATE_ACTIVE)
        dmDisabled oRegFails = PanicOr.panicked :=
  rfl

/-- Claim C3, amended: if acquiring the session-management handle or
registering the session-notification subscription fails while handling a
`DeviceStateChanged(Active)` event for a device present in the registry,
the handler panics (via the `.unwrap()`s in `set_state`) instead of
returning the error as an error value; the error is not surfaced to the
event loop and the reconciler does not continue. -/
theorem activation_failure_panics
    (dm : DeviceMap) (did : String) (dev : DeviceInfo) (o : DeviceEventOracle)
    (e : WinError)
    (hdev : lookupA did dm.map = some dev)
    (hfail : o.activateMgr = .error e ∨
      (∃ hdl, o.activateMgr = .ok hdl ∧
        o.activateOracle.registerSessionNotification = .error e)) :
    handle_device_event did (DeviceEvent.DeviceStateChanged DEVICE_STATE_ACTIVE)
        dm o = PanicOr.panicked := by
  simp only [handle_device_event, hdev]
  rw [set_state_active_form]
  rcases hfail with ham | ⟨hdl, ham, hreg⟩
  · simp only [ham]
  · simp only [ham, hreg]

/-- Claim C3, witness for the amended statement at the concrete scenario of
the counterexample. -/
theorem activation_failure_panics_witness :
    handle_device_event "d1"
        (DeviceEvent.DeviceStateChanged DEVICE_STATE_ACTIVE)
        dmDisabled oRegFails = PanicOr.panicked :=
  activation_failure_panics dmDisabled "d1" devDisabled oRegFails regFail
    rfl (Or.inr ⟨5, rfl, rfl⟩)

/-- Claim C4: processing the same `DeviceStateChanged(Active)` event twice
in a row is idempotent. If the first processing succeeds (producing
registry `dm₁`), the second processing also succeeds and leaves the device
with the same state and an extensionally equal session map (same keys and
entries), the matrix untouched and every other device entry unchanged —
`activate` re-checks the state tag and re-inserting the same enumerated
sessions changes nothing. -/
theorem device_state_changed_active_idempotent
    (dm : DeviceMap) (did : String) (dev : DeviceInfo) (o : DeviceEventOracle)
    (dm₁ : DeviceMap)
    (h0 : lookupA did dm.map = some dev)
    (h1 : handle_device_event did
        (DeviceEvent.DeviceStateChanged DEVICE_STATE_ACTIVE) dm o =
      PanicOr.ok (Except.ok dm₁)) :
    ∃ dm₂ dev₁ dev₂,
      handle_device_event did
          (DeviceEvent.DeviceStateChanged DEVICE_STATE_ACTIVE) dm₁ o =
        PanicOr.ok (Except.ok dm₂) ∧
      lookupA did dm₁.map = some dev₁ ∧
      lookupA did dm₂.map = some dev₂ ∧
      dev₂.state = dev₁.state ∧
      (∀ k, lookupA k dev₂.session_map = lookupA k dev₁.session_map) ∧
      dm₂.defaults = dm₁.defaults ∧
      (∀ k, k ≠ did → lookupA k dm₂.map = lookupA k dm₁.map) := by
  simp only [handle_device_event, h0] at h1
  rw [set_state_active_form] at h1
  cases ham : o.activateMgr with
  | error e =>
    rw [ham] at h1
    exact PanicOr.noConfusion h1
  | ok hdl =>
    rw [ham] at h1
    cases hreg : o.activateOracle.registerSessionNotification with
    | error e =>
      rw [hreg] at h1
      exact PanicOr.noConfusion h1
    | ok u =>
      rw [hreg] at h1
      cases hse : sessionEntries o.activateOracle o.snapshot with
      | error e =>
        rw [hse] at h1
        exact PanicOr.noConfusion h1
      | ok es =>
        rw [hse] at h1
        simp only [PanicOr.ok.injEq, Except.ok.injEq] at h1
        subst h1
        have hl1 : lookupA did (updateA did
            { dev with
              state := DeviceState.Active hdl
              session_map := insertEntries es dev.session_map } dm.map) =
            some { dev with
              state := DeviceState.Active hdl
              session_map := insertEntries es dev.session_map } :=
          lookupA_updateA_of_mem _ dm.map h0
        have hl2 : lookupA did (updateA did
            { dev with
              state := DeviceState.Active hdl
              session_map := insertEntries es (insertEntries es dev.session_map) }
            (updateA did
              { dev with
                state := DeviceState.Active hdl
                session_map := insertEntries es dev.session_map } dm.map)) =
            some { dev with
              state := DeviceState.Active hdl
              session_map := insertEntries es (insertEntries es dev.session_map) } :=
          lookupA_updateA_of_mem _ _ hl1
        refine ⟨
          { map := updateA did
              { dev with
                state := DeviceState.Active hdl
                session_map := insertEntries es (insertEntries es dev.session_map) }
              (updateA did
                { dev with
                  state := DeviceState.Active hdl
                  session_map := insertEntries es dev.session_map } dm.map)
            defaults := dm.defaults },
          { dev with
            state := DeviceState.Active hdl
            session_map := insertEntries es dev.session_map },
          { dev with
            state := DeviceState.Active hdl
            session_map := insertEntries es (insertEntries es dev.session_map) },
          ?_, hl1, hl2, rfl, ?_, rfl, ?_⟩
        · simp only [handle_device_event, hl1]
          rw [set_state_active_form, ham, hreg, hse]
        · intro k
          exact lookupA_insertEntries_idem k es dev.session_map
        · intro k hk
          exact lookupA_updateA_ne _ _ hk

/-- The per-session oracle of the activation scenario: one healthy session. -/
def soGood : SessionOracle :=
  { getSessionIdentifier := .ok "sid-101"
    registerNotification := .ok ()
    getState := .ok 1
    getPid := .ok 101
    getDisplayName := .ok "Child App" }

/-- An oracle whose activation fully succeeds, enumerating one session. -/
def oActivateOk : DeviceEventOracle :=
  { activateMgr := .ok 7
    activateOracle := { registerSessionNotification := .ok ()
                        getSessionEnumerator := .ok [(.ok "s1", soGood)] }
    snapshot := []
    getDevice := .error unusedErr
    allSessions := .error unusedErr }

/-- The session entry the successful activation builds. -/
def siGood : SessionInfo :=
  { instance_id := "s1", sessionId := "sid-101"
    display_name := some "Child App", state := SessionState.Active, pid := 101 }

/-- The registry after activating "d1" once. -/
def dmActivated : DeviceMap :=
  { map := [("d1",
      { session_map := [("s1", siGood)], id := "d1", name := "Dev"
        state := DeviceState.Active 7 })]
    defaults := [[none, none], [none, none], [none, none]] }

/-- Claim C4, witness: the idempotence theorem applied to a concrete
activation of device "d1" that enumerates one session. -/
theorem device_state_changed_active_idempotent_witness :
    ∃ dm₂ dev₁ dev₂,
      handle_device_event "d1"
          (DeviceEvent.DeviceStateChanged DEVICE_STATE_ACTIVE) dmActivated
          oActivateOk =
        PanicOr.ok (Except.ok dm₂) ∧
      lookupA "d1" dmActivated.map = some dev₁ ∧
      lookupA "d1" dm₂.map = some dev₂ ∧
      dev₂.state = dev₁.state ∧
      (∀ k, lookupA k dev₂.session_map = lookupA k dev₁.session_map) ∧
      dm₂.defaults = dmActivated.defaults ∧
      (∀ k, k ≠ "d1" → lookupA k dm₂.map = lookupA k dmActivated.map) :=
  device_state_changed_active_idempotent dmDisabled "d1" devDisabled
    oActivateOk dmActivated rfl rfl

/-- A snapshot with a cyclic parent link: pid 5 is recorded as its own
parent (parent pids in a snapshot are mere numbers; nothing prevents a
recycled or corrupt parent pid from closing a cycle). -/
def cycSnapshot : List ProcEntry := [⟨5, "loop", some 5⟩]

theorem cyc_rounds_all (k : Nat) : (5 : Nat) ∈ rounds cycSnapshot 5 k := by
  induction k with
  | zero => simp [rounds]
  | succ n ih =>
    refine mem_childStep.mpr ⟨5, ih, ⟨⟨5, "loop", some 5⟩, ?_, rfl, rfl⟩⟩
    simp [cycSnapshot]

/-- Claim C5, counterexample: the expansion loop of `pid_and_child_pids`
does not terminate on every finite pid-to-parent snapshot. On the snapshot
recording pid 5 as its own parent, no round is ever empty (the loop's only
exit condition), and the fuelled loop never returns however much fuel it is
observed for (here: 100 iterations). The loop checks only the previous
round, never the accumulated set, so a cyclic snapshot re-discovers the
same pid forever. -/
theorem pid_expansion_nontermination_counterexample :
    ¬ expansionTerminates cycSnapshot 5 ∧
    pid_and_child_pids 100 cycSnapshot 5 = none := by
  have hnt : ¬ expansionTerminates cycSnapshot 5 := by
    rintro ⟨k, hk⟩
    have h5 := cyc_rounds_all k
    rw [hk] at h5
    exact absurd h5 (List.not_mem_nil 5)
  refine ⟨hnt, ?_⟩
  cases hp : pid_and_child_pids 100 cycSnapshot 5 with
  | none => rfl
  | some res => exact absurd (pid_and_child_pids_some_terminates hp) hnt

/-- Claim C5, amended: on every snapshot whose parent links admit a depth
measure (each recorded child strictly deeper than its parent — equivalently
an acyclic parent relation, which holds for genuine process trees), the
breadth-first expansion terminates, and the returned set is exactly
{start} ∪ all descendants: membership coincides with reachability from the
start pid along parent links. Termination fails only for snapshots with a
parent-link cycle (see the counterexample). -/
theorem pid_expansion_terminates_acyclic
    (snapshot : List ProcEntry) (start : Nat) (depth : Nat → Nat)
    (hd : ∀ e ∈ snapshot, parentDeeper depth e = true) :
    ∃ fuel res, pid_and_child_pids fuel snapshot start = some res ∧
      ∀ p, (p ∈ res ↔ Relation.ReflTransGen (childRel snapshot) start p) := by
  have hempty := rounds_empty_of_depth start hd
  obtain ⟨m, hm, hloop, hend⟩ :=
    pidChildLoop_of_empty snapshot start
      ((snapshot.map (fun e => depth e.pid)).foldr max 0) 0 (by simpa using hempty)
  have h0 : ([[start]] : List (List Nat)) = stackOf snapshot start 0 := rfl
  have hres : pid_and_child_pids
      ((snapshot.map (fun e => depth e.pid)).foldr max 0 + 1) snapshot start =
      some (stackOf snapshot start (0 + m)).flatten := by
    unfold pid_and_child_pids
    rw [h0, hloop]
    rfl
  exact ⟨_, _, hres, pid_and_child_pids_mem hres⟩

/-- The example snapshot with parent links A → B → C (pids 1 → 2 → 3). -/
def snapABC : List ProcEntry :=
  [⟨1, "A", none⟩, ⟨2, "B", some 1⟩, ⟨3, "C", some 2⟩]

/-- Claim C5, witness: the amended theorem applied to the A → B → C
snapshot with the identity depth measure. -/
theorem pid_expansion_terminates_acyclic_witness :
    ∃ fuel res, pid_and_child_pids fuel snapABC 1 = some res ∧
      ∀ p, (p ∈ res ↔ Relation.ReflTransGen (childRel snapABC) 1 p) :=
  pid_expansion_terminates_acyclic snapABC 1 (fun p => p) (by decide)

/-- Claim C6: whenever `find_sessions_for_pid` returns (i.e. the expansion
loop exits), the returned list contains exactly the (device id,
session-instance-id) pairs, over the entire device registry, whose
session's owning pid lies in {focus pid} ∪ its descendants (reachability
along parent links in the snapshot). -/
theorem find_sessions_for_pid_characterization
    (fuel pid : Nat) (dm : DeviceMap) (system : List ProcEntry)
    (res : List (String × String))
    (h : find_sessions_for_pid fuel pid dm system = some res) :
    ∀ did sid, ((did, sid) ∈ res ↔
      ∃ dev si, (∃ k, (k, dev) ∈ dm.map) ∧ (∃ k', (k', si) ∈ dev.session_map) ∧
        dev.id = did ∧ si.instance_id = sid ∧
        Relation.ReflTransGen (childRel system) pid si.pid) := by
  unfold find_sessions_for_pid at h
  cases hp : pid_and_child_pids fuel system pid with
  | none =>
    rw [hp] at h
    exact absurd h (by simp)
  | some pids =>
    rw [hp] at h
    simp only [Option.map_some', Option.some.injEq] at h
    subst h
    have hmem := pid_and_child_pids_mem hp
    intro did sid
    rw [List.mem_flatMap]
    constructor
    · rintro ⟨dev, hdev, hin⟩
      obtain ⟨⟨k, dev'⟩, hk, rfl⟩ := List.mem_map.mp hdev
      rw [List.mem_filterMap] at hin
      obtain ⟨si, hsi, hite⟩ := hin
      obtain ⟨⟨k', si'⟩, hk', rfl⟩ := List.mem_map.mp hsi
      by_cases hc : si'.pid ∈ pids
      · rw [if_pos hc] at hite
        have hpair : (dev'.id, si'.instance_id) = (did, sid) := by
          injection hite
        have hdid : dev'.id = did := congrArg Prod.fst hpair
        have hsid : si'.instance_id = sid := congrArg Prod.snd hpair
        exact ⟨dev', si', ⟨k, hk⟩, ⟨k', hk'⟩, hdid, hsid, (hmem _).mp hc⟩
      · rw [if_neg hc] at hite
        exact absurd hite (by simp)
    · rintro ⟨dev, si, ⟨k, hk⟩, ⟨k', hk'⟩, rfl, rfl, hreach⟩
      refine ⟨dev, List.mem_map.mpr ⟨(k, dev), hk, rfl⟩, ?_⟩
      rw [List.mem_filterMap]
      refine ⟨si, List.mem_map.mpr ⟨(k', si), hk', rfl⟩, ?_⟩
      rw [if_pos ((hmem si.pid).mpr hreach)]

/-- Device "spk1" hosting one session owned by pid 101. -/
def devSpk : DeviceInfo :=
  { session_map := [("s1", siGood)], id := "spk1", name := "Speakers"
    state := DeviceState.Active 7 }

/-- A registry holding only "spk1". -/
def dmSpk : DeviceMap :=
  { map := [("spk1", devSpk)]
    defaults := [[none, none], [none, none], [none, none]] }

/-- A snapshot where the focused pid 100 has the child pid 101. -/
def snapFocus : List ProcEntry :=
  [⟨100, "app.exe", none⟩, ⟨101, "child.exe", some 100⟩]

/-- Claim C6, witness: focus-changed(100) with child 101 owning session
"s1" on "spk1" — the correlation returns [("spk1", "s1")] and the
characterization holds at that pair. -/
theorem find_sessions_for_pid_characterization_witness :
    (("spk1", "s1") ∈ [(("spk1" : String), ("s1" : String))]) ↔
      ∃ dev si, (∃ k, (k, dev) ∈ dmSpk.map) ∧ (∃ k', (k', si) ∈ dev.session_map) ∧
        dev.id = "spk1" ∧ si.instance_id = "s1" ∧
        Relation.ReflTransGen (childRel snapFocus) 100 si.pid :=
  find_sessions_for_pid_characterization 10 100 dmSpk snapFocus
    [("spk1", "s1")] rfl "spk1" "s1"

/-- The compound-key miss condition of `handle_session_event`: either the
device id is absent from the registry, or the session-instance-id is
absent from that device's session map. -/
def missingSessionKey (dm : DeviceMap) (did sid : String) : Prop :=
  match lookupA did dm.map with
  | none => True
  | some dev => lookupA sid dev.session_map = none

/-- Claim C7: a `SessionDisconnected` event for an existing (device,
session) pair removes the session — afterwards it is absent from the
device's session map — and a second disconnect for the same pair (and,
generally, any session event whose device or session is missing) returns
success without modifying the registry: a logged no-op, not an error. -/
theorem session_disconnect_removal_and_noop :
    (∀ (dm : DeviceMap) (did sid : String) (dev : DeviceInfo)
        (si : SessionInfo) (reason : DisconnectReason)
        (getPid : Except WinError Nat) (snapshot : List ProcEntry),
      lookupA did dm.map = some dev →
      lookupA sid dev.session_map = some si →
      ∃ dm' dev',
        handle_session_event dm did sid
            (SessionEvent.SessionDisconnected reason) getPid snapshot =
          Except.ok dm' ∧
        lookupA did dm'.map = some dev' ∧
        lookupA sid dev'.session_map = none ∧
        handle_session_event dm' did sid
            (SessionEvent.SessionDisconnected reason) getPid snapshot =
          Except.ok dm') ∧
    (∀ (dm : DeviceMap) (did sid : String) (ev : SessionEvent)
        (getPid : Except WinError Nat) (snapshot : List ProcEntry),
      missingSessionKey dm did sid →
      handle_session_event dm did sid ev getPid snapshot = Except.ok dm) := by
  have hnoop : ∀ (dm : DeviceMap) (did sid : String) (ev : SessionEvent)
      (getPid : Except WinError Nat) (snapshot : List ProcEntry),
      missingSessionKey dm did sid →
      handle_session_event dm did sid ev getPid snapshot = Except.ok dm := by
    intro dm did sid ev getPid snapshot hmiss
    unfold missingSessionKey at hmiss
    unfold handle_session_event
    cases hdev : lookupA did dm.map with
    | none => simp only [hdev]
    | some dev =>
      rw [hdev] at hmiss
      have hm2 : lookupA sid dev.session_map = none := hmiss
      simp only [hm2]
  refine ⟨?_, hnoop⟩
  intro dm did sid dev si reason getPid snapshot h0 h1
  have hdm' : handle_session_event dm did sid
      (SessionEvent.SessionDisconnected reason) getPid snapshot =
      Except.ok { dm with
        map := updateA did
          { dev with session_map := removeA sid dev.session_map } dm.map } := by
    simp only [handle_session_event, h0, h1]
  have hdev' : lookupA did
      (updateA did { dev with session_map := removeA sid dev.session_map } dm.map) =
      some { dev with session_map := removeA sid dev.session_map } :=
    lookupA_updateA_of_mem _ dm.map h0
  refine ⟨_, _, hdm', hdev', lookupA_removeA_self sid dev.session_map, ?_⟩
  apply hnoop
  unfold missingSessionKey
  simp only [hdev']
  exact lookupA_removeA_self sid dev.session_map

/-- Claim C7, witness: disconnecting session "s1" of device "spk1" — once
removing it, twice a no-op. -/
theorem session_disconnect_removal_and_noop_witness :
    ∃ dm' dev',
      handle_session_event dmSpk "spk1" "s1"
          (SessionEvent.SessionDisconnected DisconnectReason.DeviceRemoval)
          (Except.ok 101) [] =
        Except.ok dm' ∧
      lookupA "spk1" dm'.map = some dev' ∧
      lookupA "s1" dev'.session_map = none ∧
      handle_session_event dm' "spk1" "s1"
          (SessionEvent.SessionDisconnected DisconnectReason.DeviceRemoval)
          (Except.ok 101) [] =
        Except.ok dm' :=
  session_disconnect_removal_and_noop.1 dmSpk "spk1" "s1" devSpk siGood
    DisconnectReason.DeviceRemoval (Except.ok 101) [] rfl rfl

/-- Claim C8: `OnStateChanged` with a raw state that translates to
`Expired` pushes two events in order — first the synthesized
`SessionDisconnected(SessionExpired)`, then the `StateChanged(Expired)`
itself; with any other successfully-translated state it pushes only the
`StateChanged` event. -/
theorem on_state_changed_expired_synthesizes_disconnect
    (device_id session_instance_id : String) (raw : Nat) (st : SessionState)
    (h : sessionStateTryFrom raw = .ok st) :
    AudioSessionEvents.OnStateChanged device_id session_instance_id raw =
      .ok (if st = SessionState.Expired
        then [Event.Session device_id session_instance_id
                (SessionEvent.SessionDisconnected DisconnectReason.SessionExpired),
              Event.Session device_id session_instance_id
                (SessionEvent.StateChanged st)]
        else [Event.Session device_id session_instance_id
                (SessionEvent.StateChanged st)]) := by
  unfold AudioSessionEvents.OnStateChanged
  rw [h]
  by_cases he : st = SessionState.Expired
  · simp [he]
  · simp [he]

/-- Claim C8, witness: the raw `AudioSessionStateExpired` value (2) yields
the two-event emission. -/
theorem on_state_changed_expired_synthesizes_disconnect_witness :
    AudioSessionEvents.OnStateChanged "dev" "sess" 2 =
      .ok (if SessionState.Expired = SessionState.Expired
        then [Event.Session "dev" "sess"
                (SessionEvent.SessionDisconnected DisconnectReason.SessionExpired),
              Event.Session "dev" "sess"
                (SessionEvent.StateChanged SessionState.Expired)]
        else [Event.Session "dev" "sess"
                (SessionEvent.StateChanged SessionState.Expired)]) :=
  on_state_changed_expired_synthesizes_disconnect "dev" "sess" 2
    SessionState.Expired rfl

theorem resolved_name_not_empty (pid : Nat) (snapshot : List ProcEntry)
    (hn : ∀ e ∈ snapshot, e.name ≠ "") :
    (procFind pid snapshot).map (fun e => e.name) ≠ some "" := by
  unfold procFind
  cases hf : snapshot.find? (fun e => e.pid == pid) with
  | none => simp
  | some e =>
    have hm : e ∈ snapshot := List.mem_of_find?_eq_some hf
    simp only [Option.map_some', ne_eq, Option.some.injEq]
    exact hn e hm

theorem set_display_name_fallback (si : SessionInfo)
    (getPid : Except WinError Nat) (snapshot : List ProcEntry)
    (si' : SessionInfo)
    (hn : ∀ e ∈ snapshot, e.name ≠ "")
    (h : si.set_display_name none getPid snapshot = .ok si') :
    si'.display_name ≠ some "" ∧
    ∀ pid, getPid = .ok pid →
      si'.display_name = (procFind pid snapshot).map (fun e => e.name) := by
  simp only [SessionInfo.set_display_name] at h
  cases hg : getPid with
  | error e =>
    rw [hg] at h
    exact Except.noConfusion h
  | ok pid =>
    rw [hg] at h
    simp only [Except.ok.injEq] at h
    subst h
    refine ⟨resolved_name_not_empty pid snapshot hn, ?_⟩
    intro pid' hg'
    have hp : pid = pid' := Except.ok.inj hg'
    subst hp
    rfl

/-- Claim C9: `set_display_name` never stores the empty string (given that
snapshot process names are themselves non-empty, as real executable names
are): an empty platform-reported name is replaced by the owning process's
executable name from a fresh snapshot lookup keyed by the pid re-queried
from the session control — or by `None` when the pid is absent from the
snapshot. -/
theorem display_name_never_empty
    (si : SessionInfo) (v : Option String) (getPid : Except WinError Nat)
    (snapshot : List ProcEntry) (si' : SessionInfo)
    (hn : ∀ e ∈ snapshot, e.name ≠ "")
    (h : si.set_display_name v getPid snapshot = .ok si') :
    si'.display_name ≠ some "" ∧
    (∀ pid, v = some "" → getPid = .ok pid →
      si'.display_name = (procFind pid snapshot).map (fun e => e.name)) := by
  cases v with
  | none =>
    obtain ⟨h1, h2⟩ := set_display_name_fallback si getPid snapshot si' hn h
    exact ⟨h1, fun pid hv => Option.noConfusion hv⟩
  | some s =>
    by_cases hs : s = ""
    · subst hs
      obtain ⟨h1, h2⟩ := set_display_name_fallback si getPid snapshot si' hn h
      exact ⟨h1, fun pid _ hg => h2 pid hg⟩
    · simp only [SessionInfo.set_display_name, if_neg hs] at h
      simp only [Except.ok.injEq] at h
      subst h
      refine ⟨?_, ?_⟩
      · simp only [ne_eq, Option.some.injEq]
        exact hs
      · intro pid hv _
        exact absurd (Option.some.inj hv) hs

/-- The session of the display-name scenario: owned by pid 100, name not
yet resolved. -/
def siUnnamed : SessionInfo :=
  { instance_id := "s1", sessionId := "sid-1", display_name := none
    state := SessionState.Active, pid := 100 }

/-- The snapshot mapping pid 100 to "music.exe". -/
def snapMusic : List ProcEntry := [⟨100, "music.exe", none⟩]

/-- Claim C9, witness: an empty platform-reported name for the session
owned by pid 100 resolves to "music.exe" and is never the empty string. -/
theorem display_name_never_empty_witness :
    ({ siUnnamed with
      display_name := (procFind 100 snapMusic).map
        (fun (e : ProcEntry) => e.name) }).display_name ≠ some "" ∧
    (∀ pid, (some "" : Option String) = some "" →
      (.ok 100 : Except WinError Nat) = .ok pid →
      ({ siUnnamed with
        display_name := (procFind 100 snapMusic).map
          (fun (e : ProcEntry) => e.name) }).display_name =
        (procFind pid snapMusic).map (fun (e : ProcEntry) => e.name)) :=
  display_name_never_empty siUnnamed (some "") (.ok 100) snapMusic
    { siUnnamed with
      display_name := (procFind 100 snapMusic).map
        (fun (e : ProcEntry) => e.name) }
    (by decide) rfl

/-- Claim C10 (frame property): `SimpleVolumeChanged`, `IconPathChanged`,
`GroupingParamChanged` and `StateChanged` session events never modify the
registry — the handler only logs them; volume, mute, icon path, grouping
parameter and session state are not stored in the model. (Only
`DisplayNameChanged` and `SessionDisconnected` mutate session entries.) -/
theorem session_event_frame_property
    (dm : DeviceMap) (did sid : String) (getPid : Except WinError Nat)
    (snapshot : List ProcEntry) :
    (∀ ev : SessionSimpleVolumeChangedEvent,
      handle_session_event dm did sid (SessionEvent.SimpleVolumeChanged ev)
        getPid snapshot = Except.ok dm) ∧
    (∀ path : String,
      handle_session_event dm did sid (SessionEvent.IconPathChanged path)
        getPid snapshot = Except.ok dm) ∧
    (∀ g : Nat,
      handle_session_event dm did sid (SessionEvent.GroupingParamChanged g)
        getPid snapshot = Except.ok dm) ∧
    (∀ st : SessionState,
      handle_session_event dm did sid (SessionEvent.StateChanged st)
        getPid snapshot = Except.ok dm) := by
  refine ⟨?_, ?_, ?_, ?_⟩ <;>
  · intro x
    unfold handle_session_event
    cases hdev : lookupA did dm.map with
    | none => simp only [hdev]
    | some dev =>
      cases hsi : lookupA sid dev.session_map with
      | none => simp only [hdev, hsi]
      | some si => simp only [hdev, hsi]
